import Mathlib

/-!
Verification development for the MiniGames-Rambu-Lalulintas city game.

The definitions below are shallow embeddings of the JavaScript source:
* player movement and building collision (src/js/core/controls.js),
* world road layout and proximity checks (src/js/world/buildings.js),
* the day/night celestial clock, street lamps and traffic lights
  (src/js/world/lighting.js),
* the HUD game clock (src/js/ui/popup.js).

Numbers that the source manipulates as JavaScript floats are embedded as
exact rationals (ℚ) where the code only adds, multiplies and compares,
and as reals (ℝ) where the code calls Math.sin.
-/

/- ## Data model -/

/-- Axis-aligned building collider, as registered in `buildingColliders`
(src/js/world/buildings.js): center (x, z) and full width/depth. -/
structure Collider where
  x : ℚ
  z : ℚ
  width : ℚ
  depth : ℚ
deriving DecidableEq

/-- Player state used by `updateMovement` (src/js/core/controls.js):
horizontal position (x, z) and horizontal velocity (vx, vz).  The source
pins the vertical coordinate to the constant eye height 2 every tick, so
it carries no information and is not modelled. -/
structure PlayerState where
  x : ℚ
  z : ℚ
  vx : ℚ
  vz : ℚ
deriving DecidableEq

/- ## Collision and movement (src/js/core/controls.js) -/

/-- `playerRadius` from `checkBuildingCollisions`. -/
def playerRadius : ℚ := 1

/-- World boundary `limit` from `updateMovement`. -/
def worldLimit : ℚ := 130

/-- `checkBuildingCollisions(position)`: true when the point (px, pz) lies
strictly inside some collider's rectangle padded by `playerRadius` on both
half-extents. -/
def checkBuildingCollisions (cs : List Collider) (px pz : ℚ) : Bool :=
  cs.any fun b =>
    let halfW := b.width / 2 + playerRadius
    let halfD := b.depth / 2 + playerRadius
    decide (b.x - halfW < px) && decide (px < b.x + halfW) &&
      decide (b.z - halfD < pz) && decide (pz < b.z + halfD)

/-- X pass of `updateMovement`: move by `-vx * delta` along x
(`controls.moveRight(-velocity.x * delta)` at identity camera yaw), then
roll back only x and zero vx when the new point collides. -/
def resolveAxisX (cs : List Collider) (delta x z vx : ℚ) : ℚ × ℚ :=
  let x1 := x - vx * delta
  if checkBuildingCollisions cs x1 z then (x, 0) else (x1, vx)

/-- Z pass of `updateMovement`: move by `vz * delta` along z
(`controls.moveForward(-velocity.z * delta)` at identity camera yaw), then
roll back only z and zero vz when the new point collides. -/
def resolveAxisZ (cs : List Collider) (delta x z vz : ℚ) : ℚ × ℚ :=
  let z1 := z + vz * delta
  if checkBuildingCollisions cs x z1 then (z, 0) else (z1, vz)

/-- Boundary clamp of `updateMovement` for one axis: positions outside
[-worldLimit, worldLimit] are clamped to the limit and the velocity on
that axis is zeroed.  The source writes this as two exclusive if
statements (`pos.x < -limit`, `pos.x > limit`). -/
def clampAxis (p v : ℚ) : ℚ × ℚ :=
  if p < -worldLimit then (-worldLimit, 0)
  else if worldLimit < p then (worldLimit, 0)
  else (p, v)

/-- Displacement/collision/clamp stage of `updateMovement`, applied after
friction and input accumulation, with the velocities (vx, vz) the source
has at the `const oldPos = ...` line. -/
def moveStage (cs : List Collider) (delta x z vx vz : ℚ) : PlayerState :=
  let rx := resolveAxisX cs delta x z vx
  let rz := resolveAxisZ cs delta rx.1 z vz
  let cx := clampAxis rx.1 rx.2
  let cz := clampAxis rz.1 rz.2
  ⟨cx.1, cz.1, cx.2, cz.2⟩

/-- `updateMovement(delta)` with zero movement input on both axes: the
direction vector is zero, both speed-accumulation branches are skipped,
so the tick is friction (`velocity -= velocity * 10 * delta` per axis)
followed by `moveStage`. -/
def updateMovementNoInput (cs : List Collider) (delta : ℚ)
    (s : PlayerState) : PlayerState :=
  moveStage cs delta s.x s.z (s.vx - s.vx * 10 * delta)
    (s.vz - s.vz * 10 * delta)

/-- Squared magnitude of the horizontal velocity. -/
def mag2 (s : PlayerState) : ℚ := s.vx ^ 2 + s.vz ^ 2

/- ## Road layout and building placement (src/js/world/buildings.js) -/

/-- `roadWidth` (width of the asphalt). -/
def roadWidth : ℚ := 12

/-- Road-line coordinates generated by `createRoads`: the loop
`for (let i = -100; i <= 100; i += gridSpacing)` with gridSpacing 40,
used for both vertical (x = i) and horizontal (z = i) roads. -/
def roadLines : List ℚ := [-100, -60, -20, 20, 60, 100]

/-- `isTooCloseToRoad(x, z)` (strict version used for buildings):
margin 5; flags points within roadWidth/2 + margin of the central axes
or of any grid road line (the road-line tests also require the other
coordinate to be within the 150 half-length of the road). -/
def isTooCloseToRoad (x z : ℚ) : Bool :=
  let margin : ℚ := 5
  decide (|z| < roadWidth / 2 + margin) ||
  decide (|x| < roadWidth / 2 + margin) ||
  roadLines.any fun i =>
    (decide (|x - i| < roadWidth / 2 + margin) && decide (|z| < 150)) ||
    (decide (|z - i| < roadWidth / 2 + margin) && decide (|x| < 150))

/-- The school collider pushed in `initWorld`
(`buildingColliders.push({ x: 0, z: -40, width: 20, depth: 15 })`). -/
def schoolCollider : Collider := ⟨0, -40, 20, 15⟩

/-- Colliders registered by `initWorld` itself (the landmark school); the
remaining entries of `buildingColliders` come from the building
configuration lists, whose source file is not present. -/
def landmarkColliders : List Collider := [schoolCollider]

/-- Two collider rectangles (full width/depth half-extents around the
center) overlap: nonempty open intersection on both axes. -/
def rectsOverlap (a b : Collider) : Bool :=
  decide (a.x - a.width / 2 < b.x + b.width / 2) &&
  decide (b.x - b.width / 2 < a.x + a.width / 2) &&
  decide (a.z - a.depth / 2 < b.z + b.depth / 2) &&
  decide (b.z - b.depth / 2 < a.z + a.depth / 2)

/-- A collider rectangle meets the road-proximity buffer: for some grid
road line i, the rectangle intersects the open strip of half-width
roadWidth/2 + 5 around the vertical road x = i (within the road's
300-unit extent in z), or the corresponding strip around the horizontal
road z = i. -/
def colliderOverlapsRoadBuffer (c : Collider) : Bool :=
  let buf : ℚ := roadWidth / 2 + 5
  roadLines.any fun i =>
    (decide (i - buf < c.x + c.width / 2) && decide (c.x - c.width / 2 < i + buf) &&
     decide (-150 < c.z + c.depth / 2) && decide (c.z - c.depth / 2 < 150)) ||
    (decide (i - buf < c.z + c.depth / 2) && decide (c.z - c.depth / 2 < i + buf) &&
     decide (-150 < c.x + c.width / 2) && decide (c.x - c.width / 2 < 150))

/- ## Traffic lights (src/js/world/lighting.js, updateTrafficLights) -/

/-- Per-intersection traffic light state: `state` 0 = RED, 1 = GREEN,
2 = YELLOW, and the elapsed-time `timer`. -/
structure TrafficLight where
  state : ℕ
  timer : ℚ
deriving DecidableEq

/-- `redTime` in `updateTrafficLights`. -/
def redTime : ℚ := 4

/-- `greenTime` in `updateTrafficLights`. -/
def greenTime : ℚ := 4

/-- `yellowTime` in `updateTrafficLights`. -/
def yellowTime : ℚ := 2

/-- One tick of `updateTrafficLights` for a single instance: add the
elapsed time to the timer, then the else-if chain transitions
RED → GREEN → YELLOW → RED when the timer exceeds the current state's
duration, resetting the timer to 0. -/
def updateTrafficLight (delta : ℚ) (l : TrafficLight) : TrafficLight :=
  let t := l.timer + delta
  if l.state = 0 ∧ redTime < t then ⟨1, 0⟩
  else if l.state = 1 ∧ greenTime < t then ⟨2, 0⟩
  else if l.state = 2 ∧ yellowTime < t then ⟨0, 0⟩
  else ⟨l.state, t⟩

/-- Duration of each state in the RED/GREEN/YELLOW cycle. -/
def stateDuration : ℕ → ℚ
  | 0 => redTime
  | 1 => greenTime
  | _ => yellowTime

/- ## Day/night phase advance (src/js/world/lighting.js, updateDayNight) -/

/-- `cycleSpeed` constant from `updateDayNight` (the literal 0.001388). -/
def cycleSpeed : ℚ := 0.001388

/-- JavaScript `x % 1` (result has the sign of x, fractional part). -/
def jsMod1 (x : ℚ) : ℚ :=
  if 0 ≤ x then Int.fract x else -Int.fract (-x)

/-- Auto-advance of `timeOfDay` in `updateDayNight`:
`(timeOfDay + delta * cycleSpeed) % 1`. -/
def advanceTimeOfDay (t delta : ℚ) : ℚ :=
  jsMod1 (t + delta * cycleSpeed)

/- ## HUD game clock (src/js/ui/popup.js, updateGameClock) -/

/-- JavaScript `n.toString().padStart(2, "0")` for the integral hour and
minute values. -/
def pad2 (n : ℤ) : String :=
  let s := toString n
  if s.length < 2 then "0" ++ s else s

/-- `updateGameClock` text for a given `timeOfDay` value: base 6 hours
plus 24 per unit of phase, one wrap at 24, then floor to hours and the
fractional remainder times 60 floored to minutes, both zero-padded. -/
def updateGameClock (t : ℚ) : String :=
  let totalHours := 6 + t * 24
  let wrapped := if 24 ≤ totalHours then totalHours - 24 else totalHours
  let hours : ℤ := ⌊wrapped⌋
  let minutes : ℤ := ⌊(wrapped - (hours : ℚ)) * 60⌋
  pad2 hours ++ ":" ++ pad2 minutes

/-- Modelled from the spec (section 4.3 "Clock-face text derived from
phase"): hours = (6 + phase × 24) mod 24, minutes = fractional remainder
× 60, zero-padded; used to compare `updateGameClock` against the spec's
formula. -/
def clockTextSpec (t : ℚ) : String :=
  pad2 (⌊6 + t * 24⌋ % 24) ++ ":" ++ pad2 ⌊Int.fract (6 + t * 24) * 60⌋

/- ## Celestial mechanics (src/js/world/lighting.js, updateDayNight) -/

/-- `sunY` in `updateDayNight`: `Math.sin(timeOfDay * Math.PI * 2) * 150`
(orbitRadius 150). -/
noncomputable def sunYOf (p : ℝ) : ℝ :=
  Real.sin (p * Real.pi * 2) * 150

/-- Sun mesh visibility: `sunMesh.visible = sunY > -10`. -/
def sunMeshVisible (p : ℝ) : Prop := -10 < sunYOf p

/-- Moon mesh visibility: `moonMesh.visible = -sunY > -10` (the moon sits
at the negated sun position). -/
def moonMeshVisible (p : ℝ) : Prop := -10 < -sunYOf p

/-- `sunHeight` in `updateDayNight`: `Math.sin(timeOfDay * Math.PI * 2)`. -/
noncomputable def sunHeightOf (p : ℝ) : ℝ :=
  Real.sin (p * Real.pi * 2)

/-- `dayFactor = Math.max(0, sunHeight)`. -/
noncomputable def dayFactorOf (p : ℝ) : ℝ := max 0 (sunHeightOf p)

/-- `nightFactor = 1 - dayFactor`. -/
noncomputable def nightFactorOf (p : ℝ) : ℝ := 1 - dayFactorOf p

/-- Street-lamp point-light intensity in `updateDayNight`:
`3.0 * Math.max(0, nightFactor - 0.2)`. -/
noncomputable def lampIntensityOf (p : ℝ) : ℝ :=
  3 * max 0 (nightFactorOf p - 0.2)

/-- Street-lamp bulb emissive intensity in `updateDayNight`:
`intensity > 0.1 ? 2.0 : 0`. -/
noncomputable def bulbEmissiveOf (p : ℝ) : ℝ :=
  if 0.1 < lampIntensityOf p then 2 else 0

/- ## Theorems: traffic lights -/

/-- C4: every tick adds the elapsed delta to the instance's timer; while
the timer stays within the current state's duration (RED 4 s, GREEN 4 s,
YELLOW 2 s) the state is unchanged and the timer accumulates, and as soon
as the timer exceeds the duration the light moves to the next state in
the RED → GREEN → YELLOW → RED cycle with the timer reset to exactly 0
(no overshoot carried over); in particular from RED with timer 0, a
single tick of redTime + eps yields GREEN with timer 0 ≤ eps. -/
theorem trafficLight_tick_spec (l : TrafficLight) (delta : ℚ)
    (hdelta : 0 < delta) (hs : l.state < 3) :
    (l.timer + delta ≤ stateDuration l.state →
      updateTrafficLight delta l = ⟨l.state, l.timer + delta⟩) ∧
    (stateDuration l.state < l.timer + delta →
      (updateTrafficLight delta l).state = (l.state + 1) % 3 ∧
      (updateTrafficLight delta l).timer = 0) ∧
    (∀ eps : ℚ, 0 < eps →
      updateTrafficLight (redTime + eps) ⟨0, 0⟩ = ⟨1, 0⟩ ∧
      (updateTrafficLight (redTime + eps) ⟨0, 0⟩).timer ≤ eps) := by
  obtain ⟨s, t⟩ := l
  simp only [TrafficLight.mk.injEq] at *
  refine ⟨?_, ?_, ?_⟩
  · intro h
    interval_cases s <;>
      simp_all [updateTrafficLight, stateDuration, redTime, greenTime,
        yellowTime]
  · intro h
    interval_cases s <;>
      simp_all [updateTrafficLight, stateDuration, redTime, greenTime,
        yellowTime]
  · intro eps heps
    have h4 : updateTrafficLight (redTime + eps) ⟨0, 0⟩ = ⟨1, 0⟩ := by
      simp only [updateTrafficLight]
      rw [if_pos ⟨by trivial, by simp only [redTime]; linarith⟩]
    exact ⟨h4, by rw [h4]; exact heps.le⟩

/-- Witness for C4: from RED with timer 0 and a 5-second tick
(duration 4 exceeded), the light is GREEN with timer 0. -/
theorem trafficLight_tick_spec_witness :
    (updateTrafficLight 5 ⟨0, 0⟩).state = 1 ∧
    (updateTrafficLight 5 ⟨0, 0⟩).timer = 0 := by
  have h := (trafficLight_tick_spec ⟨0, 0⟩ 5 (by norm_num)
    (by norm_num)).2.1 (by norm_num [stateDuration, redTime])
  simpa using h

/-- C10: one update call performs at most one transition: for every
starting state and every elapsed delta, however large, the post-update
state is the pre-update state or its immediate successor in the
RED → GREEN → YELLOW → RED cycle. -/
theorem trafficLight_at_most_one_transition (l : TrafficLight) (delta : ℚ) :
    (updateTrafficLight delta l).state = l.state ∨
    (updateTrafficLight delta l).state = (l.state + 1) % 3 := by
  obtain ⟨s, t⟩ := l
  simp only [updateTrafficLight]
  split_ifs with h1 h2 h3
  · right; rw [h1.1]
  · right; rw [h2.1]
  · right; rw [h3.1]
  · left; rfl

/- ## Theorems: sun and moon visibility -/

/-- Helper: the sun height at phase 0 is exactly 0. -/
theorem sunYOf_zero : sunYOf 0 = 0 := by
  simp [sunYOf]

/-- C1 counterexample: at phase 0 the code makes the sun mesh visible
(sunY = 0 > -10) and the moon mesh visible (-sunY = 0 > -10)
simultaneously, so the moon flag is not the negation of the sun flag and
the two flags are both true. -/
theorem sun_moon_both_visible_at_zero :
    sunMeshVisible 0 ∧ moonMeshVisible 0 ∧
      ¬(moonMeshVisible 0 ↔ ¬sunMeshVisible 0) := by
  have h : sunYOf 0 = 0 := sunYOf_zero
  refine ⟨?_, ?_, ?_⟩
  · simp only [sunMeshVisible, h]; norm_num
  · simp only [moonMeshVisible, h]; norm_num
  · intro hiff
    have hsun : sunMeshVisible 0 := by
      simp only [sunMeshVisible, h]; norm_num
    have hmoon : moonMeshVisible 0 := by
      simp only [moonMeshVisible, h]; norm_num
    exact (hiff.mp hmoon) hsun

/-- C1 amended: for every phase, the moon flag is true exactly when the
sun height is below the symmetric threshold (sunY < 10); the two flags
are never both false, and they are both true exactly in the neutral band
-10 < sunY < 10, so moon visibility agrees with the negation of sun
visibility only outside that band. -/
theorem moon_visibility_characterization (p : ℝ) :
    (moonMeshVisible p ↔ sunYOf p < 10) ∧
    (sunMeshVisible p ∨ moonMeshVisible p) ∧
    ((sunMeshVisible p ∧ moonMeshVisible p) ↔
      (-10 < sunYOf p ∧ sunYOf p < 10)) := by
  unfold sunMeshVisible moonMeshVisible
  constructor
  · constructor <;> intro h <;> linarith
  constructor
  · rcases lt_or_le (-10) (sunYOf p) with h | h
    · exact Or.inl h
    · exact Or.inr (by linarith)
  · constructor
    · rintro ⟨h1, h2⟩; exact ⟨h1, by linarith⟩
    · rintro ⟨h1, h2⟩; exact ⟨h1, by linarith⟩

/- ## Theorems: street lamps -/

/-- Helper: at phase 1/2 the sun is at the horizon (sin π = 0), so the
night factor is exactly 1. -/
theorem nightFactorOf_half : nightFactorOf (1 / 2) = 1 := by
  have h : (1 / 2 : ℝ) * Real.pi * 2 = Real.pi := by ring
  unfold nightFactorOf dayFactorOf sunHeightOf
  rw [h, Real.sin_pi]
  norm_num

/-- C6: for every phase, the street-lamp point-light intensity is 0 while
the night factor is at most 0.2 and equals the linear ramp
3 · (nightFactor − 0.2) once the night factor exceeds 0.2; the bulb's
emissive value is the binary toggle: exactly 2 when the intensity
exceeds 0.1 and exactly 0 otherwise, taking no other values. -/
theorem street_lamp_intensity_spec (p : ℝ) :
    (nightFactorOf p ≤ 0.2 → lampIntensityOf p = 0) ∧
    (0.2 < nightFactorOf p →
      lampIntensityOf p = 3 * (nightFactorOf p - 0.2)) ∧
    (bulbEmissiveOf p = 2 ↔ 0.1 < lampIntensityOf p) ∧
    (bulbEmissiveOf p = 2 ∨ bulbEmissiveOf p = 0) := by
  refine ⟨?_, ?_, ?_, ?_⟩
  · intro h
    have : nightFactorOf p - 0.2 ≤ 0 := by linarith
    simp [lampIntensityOf, max_eq_left this]
  · intro h
    have : (0 : ℝ) ≤ nightFactorOf p - 0.2 := by linarith
    simp [lampIntensityOf, max_eq_right this]
  · unfold bulbEmissiveOf
    split_ifs with h
    · simpa using h
    · simpa using h
  · unfold bulbEmissiveOf
    split_ifs with h
    · exact Or.inl rfl
    · exact Or.inr rfl

/-- Witness for C6: at phase 1/2 the night factor is 1 > 0.2, so the
lamp intensity is 3 · (1 − 0.2) = 2.4 and the bulb emissive toggles
to 2. -/
theorem street_lamp_intensity_spec_witness :
    lampIntensityOf (1 / 2) = 2.4 ∧ bulbEmissiveOf (1 / 2) = 2 := by
  have hnf : nightFactorOf (1 / 2) = 1 := nightFactorOf_half
  have h := street_lamp_intensity_spec (1 / 2)
  have hi : lampIntensityOf (1 / 2) = 2.4 := by
    rw [h.2.1 (by rw [hnf]; norm_num), hnf]; norm_num
  exact ⟨hi, h.2.2.1.mpr (by rw [hi]; norm_num)⟩

/- ## Theorems: day/night phase advance -/

/-- C5 counterexample: the cycle-speed constant the code uses, 0.001388,
is not 1/720, so a constant-rate run of 720 real seconds advances the
phase by 720 · cycleSpeed = 0.99936, not exactly one full day. -/
theorem cycleSpeed_not_one_div_720 :
    cycleSpeed ≠ 1 / 720 ∧ 720 * cycleSpeed ≠ 1 ∧
      720 * cycleSpeed = 99936 / 100000 := by
  refine ⟨?_, ?_, ?_⟩ <;> norm_num [cycleSpeed]

/-- C5 amended: each auto-advance tick adds delta · cycleSpeed to the
phase and wraps it into [0, 1); cycleSpeed is the literal 0.001388 =
1388/10⁶, which is strictly below 1/720 but within 10⁻⁶ of it, so one
real second is approximately (not exactly) 2 simulated minutes and a
full day takes slightly more than 720 real seconds. -/
theorem advanceTimeOfDay_spec :
    cycleSpeed = 1388 / 1000000 ∧
    (1 / 720 - 1 / 1000000 < cycleSpeed ∧ cycleSpeed < 1 / 720) ∧
    (∀ t delta : ℚ, 0 ≤ t → 0 ≤ delta →
      advanceTimeOfDay t delta
          = t + delta * cycleSpeed - ⌊t + delta * cycleSpeed⌋ ∧
        0 ≤ advanceTimeOfDay t delta ∧ advanceTimeOfDay t delta < 1) := by
  refine ⟨by norm_num [cycleSpeed], ⟨by norm_num [cycleSpeed],
    by norm_num [cycleSpeed]⟩, ?_⟩
  intro t delta ht hdelta
  have hcs : (0 : ℚ) ≤ cycleSpeed := by norm_num [cycleSpeed]
  have hnn : (0 : ℚ) ≤ t + delta * cycleSpeed :=
    add_nonneg ht (mul_nonneg hdelta hcs)
  have hadv : advanceTimeOfDay t delta = Int.fract (t + delta * cycleSpeed) := by
    rw [advanceTimeOfDay, jsMod1, if_pos hnn]
  refine ⟨?_, ?_, ?_⟩
  · rw [hadv, Int.fract]
  · rw [hadv]; exact Int.fract_nonneg _
  · rw [hadv]; exact Int.fract_lt_one _

/-- Witness for C5: advancing from phase 0 by one 1-second tick yields
phase 0.001388 exactly. -/
theorem advanceTimeOfDay_spec_witness :
    advanceTimeOfDay 0 1 = 1388 / 1000000 := by
  have h := (advanceTimeOfDay_spec.2.2 0 1 le_rfl zero_le_one).1
  rw [h]
  norm_num [cycleSpeed]

/- ## Theorems: HUD game clock -/

/-- C7: for every phase in [0, 1), the clock text equals the spec's
formula — hours = floor of (6 + phase · 24) mod 24 and minutes = floor of
the fractional hour remainder · 60, both zero-padded to two digits — and
the four checkpoint phases render 06:00, 12:00, 18:00 and 00:00. -/
theorem updateGameClock_spec :
    (∀ t : ℚ, 0 ≤ t → t < 1 → updateGameClock t = clockTextSpec t) ∧
    updateGameClock 0 = "06:00" ∧ updateGameClock (1 / 4) = "12:00" ∧
    updateGameClock (1 / 2) = "18:00" ∧ updateGameClock (3 / 4) = "00:00" := by
  refine ⟨?_, by norm_num [updateGameClock, pad2]; rfl,
    by norm_num [updateGameClock, pad2]; rfl,
    by norm_num [updateGameClock, pad2]; rfl,
    by norm_num [updateGameClock, pad2]; rfl⟩
  intro t h0 h1
  have hlo : (6 : ℚ) ≤ 6 + t * 24 := by linarith
  have hhi : (6 : ℚ) + t * 24 < 30 := by linarith
  have hflo : (6 : ℤ) ≤ ⌊(6 : ℚ) + t * 24⌋ := by
    rw [Int.le_floor]; exact_mod_cast hlo
  have hfhi : ⌊(6 : ℚ) + t * 24⌋ < 30 := by
    rw [Int.floor_lt]; exact_mod_cast hhi
  simp only [updateGameClock, clockTextSpec]
  by_cases hc : (24 : ℚ) ≤ 6 + t * 24
  · rw [if_pos hc]
    have hf24 : (24 : ℤ) ≤ ⌊(6 : ℚ) + t * 24⌋ := by
      rw [Int.le_floor]; exact_mod_cast hc
    have hfl : ⌊(6 : ℚ) + t * 24 - 24⌋ = ⌊(6 : ℚ) + t * 24⌋ - 24 := by
      rw [show ((24 : ℚ)) = ((24 : ℤ) : ℚ) by norm_num, Int.floor_sub_int]
    have hA : ⌊(6 : ℚ) + t * 24 - 24⌋ = ⌊(6 : ℚ) + t * 24⌋ % 24 := by
      rw [hfl]; omega
    have hB : ((6 : ℚ) + t * 24 - 24 - (⌊(6 : ℚ) + t * 24 - 24⌋ : ℚ))
        = Int.fract ((6 : ℚ) + t * 24) := by
      rw [hfl, Int.fract]
      push_cast
      ring
    rw [hB, hA]
  · rw [if_neg hc]
    push_neg at hc
    have hf24 : ⌊(6 : ℚ) + t * 24⌋ < 24 := by
      rw [Int.floor_lt]; exact_mod_cast hc
    have hA : ⌊(6 : ℚ) + t * 24⌋ = ⌊(6 : ℚ) + t * 24⌋ % 24 := by omega
    have hB : ((6 : ℚ) + t * 24 - (⌊(6 : ℚ) + t * 24⌋ : ℚ))
        = Int.fract ((6 : ℚ) + t * 24) := by
      rw [Int.fract]
    rw [hB]
    conv_lhs => rw [hA]

/-- Witness for C7: at phase 1/8 (9 o'clock in the morning) the rendered
text matches the spec formula, both evaluating to 09:00. -/
theorem updateGameClock_spec_witness :
    updateGameClock (1 / 8) = clockTextSpec (1 / 8) ∧
    updateGameClock (1 / 8) = "09:00" := by
  refine ⟨updateGameClock_spec.1 (1 / 8) (by norm_num) (by norm_num), ?_⟩
  norm_num [updateGameClock, pad2]
  rfl

/- ## Theorems: movement boundary and collision -/

/-- Behaviour of the per-axis boundary clamp: the result is always within
[-worldLimit, worldLimit]; overshooting either side lands exactly on the
limit with zero velocity; in-range inputs pass through unchanged. -/
theorem clampAxis_spec (p v : ℚ) :
    (-worldLimit ≤ (clampAxis p v).1 ∧ (clampAxis p v).1 ≤ worldLimit) ∧
    (worldLimit < p → clampAxis p v = (worldLimit, 0)) ∧
    (p < -worldLimit → clampAxis p v = (-worldLimit, 0)) ∧
    (-worldLimit ≤ p → p ≤ worldLimit → clampAxis p v = (p, v)) := by
  unfold clampAxis worldLimit
  split_ifs with h1 h2 <;>
    refine ⟨⟨by norm_num <;> linarith, by norm_num <;> linarith⟩,
      fun h => by first | rfl | linarith,
      fun h => by first | rfl | linarith,
      fun ha hb => by first | rfl | linarith⟩

/-- C8: after any movement update the position is inside the symmetric
world boundary [-130, 130] on both axes, whatever the colliders, delta,
starting position and velocities; and whenever an axis's resolved
position overshoots the boundary, that coordinate is clamped to exactly
the limit and the velocity on that axis is zeroed. -/
theorem moveStage_bounds (cs : List Collider) (delta x z vx vz : ℚ) :
    (-worldLimit ≤ (moveStage cs delta x z vx vz).x ∧
      (moveStage cs delta x z vx vz).x ≤ worldLimit ∧
      -worldLimit ≤ (moveStage cs delta x z vx vz).z ∧
      (moveStage cs delta x z vx vz).z ≤ worldLimit) ∧
    (worldLimit < (resolveAxisX cs delta x z vx).1 →
      (moveStage cs delta x z vx vz).x = worldLimit ∧
      (moveStage cs delta x z vx vz).vx = 0) ∧
    ((resolveAxisZ cs delta (resolveAxisX cs delta x z vx).1 z vz).1 <
        -worldLimit →
      (moveStage cs delta x z vx vz).z = -worldLimit ∧
      (moveStage cs delta x z vx vz).vz = 0) := by
  simp only [moveStage]
  refine ⟨⟨(clampAxis_spec _ _).1.1, (clampAxis_spec _ _).1.2,
    (clampAxis_spec _ _).1.1, (clampAxis_spec _ _).1.2⟩, ?_, ?_⟩
  · intro h
    rw [(clampAxis_spec _ _).2.1 h]
    exact ⟨rfl, rfl⟩
  · intro h
    rw [(clampAxis_spec _ _).2.2.1 h]
    exact ⟨rfl, rfl⟩

/-- Witness for C8: pushing off from x = 130 with a displacement of +50
(a move that would land on x = limit + 50 = 180) ends exactly on the
limit 130 with the x velocity zeroed. -/
theorem moveStage_bounds_witness :
    (resolveAxisX [] 1 130 0 (-50)).1 = 180 ∧
    (moveStage [] 1 130 0 (-50) 0).x = worldLimit ∧
    (moveStage [] 1 130 0 (-50) 0).vx = 0 := by
  have h180 : (resolveAxisX [] 1 130 0 (-50)).1 = 180 := by
    norm_num [resolveAxisX, checkBuildingCollisions]
  have h := (moveStage_bounds [] 1 130 0 (-50) 0).2.1
    (by rw [h180]; norm_num [worldLimit])
  exact ⟨h180, h.1, h.2⟩

/-- C3: axis-separated collision resolution.  From a collision-free
in-bounds start, when the X displacement (applied first) lands inside
some collider padded by the player radius while the Z displacement from
the rolled-back position is unobstructed and stays in bounds, the update
rolls only x back to its pre-move value, zeroes only vx, still applies
the full Z displacement keeping vz (sliding), and the final position is
collision-free. -/
theorem moveStage_axis_separated_sliding (cs : List Collider)
    (delta x z vx vz : ℚ)
    (hstart : checkBuildingCollisions cs x z = false)
    (hxblocked : checkBuildingCollisions cs (x - vx * delta) z = true)
    (hzfree : checkBuildingCollisions cs x (z + vz * delta) = false)
    (hxlo : -worldLimit ≤ x) (hxhi : x ≤ worldLimit)
    (hzlo : -worldLimit ≤ z + vz * delta)
    (hzhi : z + vz * delta ≤ worldLimit) :
    moveStage cs delta x z vx vz = ⟨x, z + vz * delta, 0, vz⟩ ∧
    checkBuildingCollisions cs (moveStage cs delta x z vx vz).x
      (moveStage cs delta x z vx vz).z = false := by
  have hrx : resolveAxisX cs delta x z vx = (x, 0) := by
    rw [resolveAxisX, if_pos hxblocked]
  have hrz : resolveAxisZ cs delta x z vz = (z + vz * delta, vz) := by
    rw [resolveAxisZ, if_neg (by rw [hzfree]; exact Bool.false_ne_true)]
  have heq : moveStage cs delta x z vx vz = ⟨x, z + vz * delta, 0, vz⟩ := by
    simp only [moveStage, hrx, hrz]
    rw [(clampAxis_spec x 0).2.2.2 hxlo hxhi,
      (clampAxis_spec (z + vz * delta) vz).2.2.2 hzlo hzhi]
  refine ⟨heq, ?_⟩
  rw [heq]
  exact hzfree

/-- Witness for C3: a single 4×4 collider centered at (5, 0); the player
at the origin with vx = -3, vz = 5, delta = 1: the X move to x = 3 hits
the padded box (2, 8) × (-3, 3), is rolled back to 0 with vx zeroed,
while the Z move to z = 5 goes through, giving final state
(0, 5) with velocity (0, 5). -/
theorem moveStage_axis_separated_sliding_witness :
    checkBuildingCollisions [⟨5, 0, 4, 4⟩] 0 0 = false ∧
    checkBuildingCollisions [⟨5, 0, 4, 4⟩] (0 - (-3) * 1) 0 = true ∧
    checkBuildingCollisions [⟨5, 0, 4, 4⟩] 0 (0 + 5 * 1) = false ∧
    moveStage [⟨5, 0, 4, 4⟩] 1 0 0 (-3) 5 = ⟨0, 0 + 5 * 1, 0, 5⟩ := by
  have h1 : checkBuildingCollisions [⟨5, 0, 4, 4⟩] 0 0 = false := by
    norm_num [checkBuildingCollisions, playerRadius]
  have h2 : checkBuildingCollisions [⟨5, 0, 4, 4⟩] (0 - (-3) * 1) 0 = true := by
    norm_num [checkBuildingCollisions, playerRadius]
  have h3 : checkBuildingCollisions [⟨5, 0, 4, 4⟩] 0 (0 + 5 * 1) = false := by
    norm_num [checkBuildingCollisions, playerRadius]
  refine ⟨h1, h2, h3, ?_⟩
  exact (moveStage_axis_separated_sliding [⟨5, 0, 4, 4⟩] 1 0 0 (-3) 5
    h1 h2 h3 (by norm_num [worldLimit]) (by norm_num [worldLimit])
    (by norm_num [worldLimit]) (by norm_num [worldLimit])).1

/- ## Theorems: building colliders and the road buffer -/

/-- C9 counterexample: the school landmark collider, registered into
`buildingColliders` by `initWorld`, overlaps the road-proximity buffer:
its rectangle [-10, 10] × [-47.5, -32.5] reaches within 10 < 11 units of
the vertical road line x = 20 (and x = -20), and the source's own
`isTooCloseToRoad` flags its center (0, -40) because |x| = 0 < 11. -/
theorem school_collider_overlaps_road_buffer :
    schoolCollider ∈ landmarkColliders ∧
    colliderOverlapsRoadBuffer schoolCollider = true ∧
    isTooCloseToRoad schoolCollider.x schoolCollider.z = true := by
  refine ⟨by simp [landmarkColliders], ?_, ?_⟩
  · norm_num [colliderOverlapsRoadBuffer, roadLines, roadWidth,
      schoolCollider]
  · norm_num [isTooCloseToRoad, roadLines, roadWidth, schoolCollider]

/-- C9 amended: the road-proximity check used for generated placements
is sound — any center it accepts lies at least roadWidth/2 + 5 = 11 units
from both central axes and, within the 150-unit road extent, from every
grid road line — so buildings placed under that check have centers
outside every road buffer; the school landmark however is registered
without the check, fails it, and its rectangle overlaps the buffer of
road x = 20 (see the counterexample), so the claimed invariant does not
hold of the full registered collider set. -/
theorem isTooCloseToRoad_sound (x z : ℚ)
    (h : isTooCloseToRoad x z = false) :
    roadWidth / 2 + 5 ≤ |x| ∧ roadWidth / 2 + 5 ≤ |z| ∧
    ∀ i ∈ roadLines,
      (|z| < 150 → roadWidth / 2 + 5 ≤ |x - i|) ∧
      (|x| < 150 → roadWidth / 2 + 5 ≤ |z - i|) := by
  simp only [isTooCloseToRoad, roadLines, List.any_cons, List.any_nil,
    Bool.or_eq_false_iff, Bool.and_eq_false_iff, decide_eq_false_iff_not,
    not_lt] at h
  obtain ⟨⟨hz, hx⟩, hlist⟩ := h
  refine ⟨hx, hz, ?_⟩
  intro i hi
  simp only [roadLines, List.mem_cons, List.not_mem_nil, or_false] at hi
  obtain ⟨h1, h2, h3, h4, h5, h6, -⟩ := hlist
  rcases hi with rfl | rfl | rfl | rfl | rfl | rfl
  · exact ⟨fun hin => h1.1.resolve_right (not_le.mpr hin),
      fun hin => h1.2.resolve_right (not_le.mpr hin)⟩
  · exact ⟨fun hin => h2.1.resolve_right (not_le.mpr hin),
      fun hin => h2.2.resolve_right (not_le.mpr hin)⟩
  · exact ⟨fun hin => h3.1.resolve_right (not_le.mpr hin),
      fun hin => h3.2.resolve_right (not_le.mpr hin)⟩
  · exact ⟨fun hin => h4.1.resolve_right (not_le.mpr hin),
      fun hin => h4.2.resolve_right (not_le.mpr hin)⟩
  · exact ⟨fun hin => h5.1.resolve_right (not_le.mpr hin),
      fun hin => h5.2.resolve_right (not_le.mpr hin)⟩
  · exact ⟨fun hin => h6.1.resolve_right (not_le.mpr hin),
      fun hin => h6.2.resolve_right (not_le.mpr hin)⟩

/- ## Theorems: friction decay with zero input -/

/-- Trajectory of repeated zero-input movement ticks with a fixed
per-tick delta, no colliders, from a standing start at the world
origin with initial velocity (vx0, vz0). -/
def noInputTraj (delta vx0 vz0 : ℚ) : ℕ → PlayerState
  | 0 => ⟨0, 0, vx0, vz0⟩
  | n + 1 => updateMovementNoInput [] delta (noInputTraj delta vx0 vz0 n)

/-- With no registered colliders the collision check is always false. -/
theorem checkBuildingCollisions_nil (px pz : ℚ) :
    checkBuildingCollisions [] px pz = false := rfl

/-- A zero-input tick that stays inside the world boundary and meets no
collider multiplies both velocity components by (1 - 10 · delta) and
displaces the position by the post-friction velocity times delta. -/
theorem updateMovementNoInput_free (delta : ℚ) (s : PlayerState)
    (hx1 : -worldLimit ≤ s.x - s.vx * (1 - 10 * delta) * delta)
    (hx2 : s.x - s.vx * (1 - 10 * delta) * delta ≤ worldLimit)
    (hz1 : -worldLimit ≤ s.z + s.vz * (1 - 10 * delta) * delta)
    (hz2 : s.z + s.vz * (1 - 10 * delta) * delta ≤ worldLimit) :
    updateMovementNoInput [] delta s =
      ⟨s.x - s.vx * (1 - 10 * delta) * delta,
       s.z + s.vz * (1 - 10 * delta) * delta,
       s.vx * (1 - 10 * delta), s.vz * (1 - 10 * delta)⟩ := by
  have hfx : s.vx - s.vx * 10 * delta = s.vx * (1 - 10 * delta) := by ring
  have hfz : s.vz - s.vz * 10 * delta = s.vz * (1 - 10 * delta) := by ring
  simp only [updateMovementNoInput, hfx, hfz, moveStage, resolveAxisX,
    resolveAxisZ, checkBuildingCollisions_nil, Bool.false_eq_true, if_false]
  rw [(clampAxis_spec _ _).2.2.2 hx1 hx2, (clampAxis_spec _ _).2.2.2 hz1 hz2]

/-- Closed form of the zero-input trajectory for per-tick deltas in
(0, 1/10) and moderate starting speed: the velocity components are
vx0 · (1 - 10 · delta)^n and the positions never drift more than
|v0|/10 from the origin, so no collision or boundary clamp ever fires. -/
theorem noInputTraj_closed_form (delta vx0 vz0 : ℚ)
    (hd : 0 < delta) (hr : 10 * delta < 1)
    (hvx : |vx0| ≤ 100) (hvz : |vz0| ≤ 100) (n : ℕ) :
    (noInputTraj delta vx0 vz0 n).vx = vx0 * (1 - 10 * delta) ^ n ∧
    (noInputTraj delta vx0 vz0 n).vz = vz0 * (1 - 10 * delta) ^ n ∧
    |(noInputTraj delta vx0 vz0 n).x|
      ≤ |vx0| * (1 - (1 - 10 * delta) ^ n) / 10 ∧
    |(noInputTraj delta vx0 vz0 n).z|
      ≤ |vz0| * (1 - (1 - 10 * delta) ^ n) / 10 := by
  obtain ⟨r, hrdef⟩ : ∃ r : ℚ, r = 1 - 10 * delta := ⟨_, rfl⟩
  rw [← hrdef]
  have hr0 : 0 < r := by rw [hrdef]; linarith
  have hr1 : r < 1 := by rw [hrdef]; linarith
  induction n with
  | zero =>
    refine ⟨by simp [noInputTraj], by simp [noInputTraj], ?_, ?_⟩ <;>
      simp [noInputTraj]
  | succ n ih =>
    obtain ⟨ivx, ivz, ix, iz⟩ := ih
    have hp0 : (0 : ℚ) ≤ r ^ n := (pow_pos hr0 n).le
    have hp1 : r ^ n ≤ 1 := pow_le_one₀ hr0.le hr1.le
    have hps0 : (0 : ℚ) ≤ r ^ (n + 1) := (pow_pos hr0 (n + 1)).le
    have hps1 : r ^ (n + 1) ≤ 1 := pow_le_one₀ hr0.le hr1.le
    have hvx0 : (0 : ℚ) ≤ |vx0| := abs_nonneg _
    have hvz0 : (0 : ℚ) ≤ |vz0| := abs_nonneg _
    have hdispx : |(noInputTraj delta vx0 vz0 n).vx * r * delta|
        = |vx0| * r ^ n * r * delta := by
      rw [ivx, abs_mul, abs_mul, abs_mul, abs_of_nonneg hp0,
        abs_of_pos hr0, abs_of_pos hd]
    have hdispz : |(noInputTraj delta vx0 vz0 n).vz * r * delta|
        = |vz0| * r ^ n * r * delta := by
      rw [ivz, abs_mul, abs_mul, abs_mul, abs_of_nonneg hp0,
        abs_of_pos hr0, abs_of_pos hd]
    have hkey : ∀ A : ℚ, 0 ≤ A →
        A * (1 - r ^ n) / 10 + A * r ^ n * r * delta
          ≤ A * (1 - r ^ (n + 1)) / 10 := by
      intro A hA
      have hAd : (0 : ℚ) ≤ A * r ^ n * delta :=
        mul_nonneg (mul_nonneg hA hp0) hd.le
      have h1 : A * r ^ n * r * delta ≤ A * r ^ n * delta := by
        calc A * r ^ n * r * delta = A * r ^ n * delta * r := by ring
          _ ≤ A * r ^ n * delta := mul_le_of_le_one_right hAd hr1.le
      have hid : A * (1 - r ^ (n + 1)) / 10 - A * (1 - r ^ n) / 10
          = A * r ^ n * delta := by
        rw [pow_succ, hrdef]
        ring
      calc A * (1 - r ^ n) / 10 + A * r ^ n * r * delta
          ≤ A * (1 - r ^ n) / 10 + A * r ^ n * delta := by linarith [h1]
        _ = A * (1 - r ^ (n + 1)) / 10 := by linarith [hid]
    have hboundx : |(noInputTraj delta vx0 vz0 n).x -
        (noInputTraj delta vx0 vz0 n).vx * r * delta|
          ≤ |vx0| * (1 - r ^ (n + 1)) / 10 := by
      calc |(noInputTraj delta vx0 vz0 n).x -
          (noInputTraj delta vx0 vz0 n).vx * r * delta|
          ≤ |(noInputTraj delta vx0 vz0 n).x| +
            |(noInputTraj delta vx0 vz0 n).vx * r * delta| := abs_sub _ _
        _ ≤ |vx0| * (1 - r ^ n) / 10 + |vx0| * r ^ n * r * delta := by
            rw [hdispx]; linarith
        _ ≤ |vx0| * (1 - r ^ (n + 1)) / 10 := hkey _ hvx0
    have hboundz : |(noInputTraj delta vx0 vz0 n).z +
        (noInputTraj delta vx0 vz0 n).vz * r * delta|
          ≤ |vz0| * (1 - r ^ (n + 1)) / 10 := by
      calc |(noInputTraj delta vx0 vz0 n).z +
          (noInputTraj delta vx0 vz0 n).vz * r * delta|
          ≤ |(noInputTraj delta vx0 vz0 n).z| +
            |(noInputTraj delta vx0 vz0 n).vz * r * delta| := abs_add _ _
        _ ≤ |vz0| * (1 - r ^ n) / 10 + |vz0| * r ^ n * r * delta := by
            rw [hdispz]; linarith
        _ ≤ |vz0| * (1 - r ^ (n + 1)) / 10 := hkey _ hvz0
    have hsmallx : |vx0| * (1 - r ^ (n + 1)) / 10 ≤ 10 := by
      have h100 : |vx0| * (1 - r ^ (n + 1)) ≤ 100 * 1 :=
        mul_le_mul hvx (by linarith) (by linarith) (by norm_num)
      linarith
    have hsmallz : |vz0| * (1 - r ^ (n + 1)) / 10 ≤ 10 := by
      have h100 : |vz0| * (1 - r ^ (n + 1)) ≤ 100 * 1 :=
        mul_le_mul hvz (by linarith) (by linarith) (by norm_num)
      linarith
    have hxlim := abs_le.mp (hboundx.trans hsmallx)
    have hzlim := abs_le.mp (hboundz.trans hsmallz)
    have hstep : noInputTraj delta vx0 vz0 (n + 1) =
        ⟨(noInputTraj delta vx0 vz0 n).x -
            (noInputTraj delta vx0 vz0 n).vx * r * delta,
          (noInputTraj delta vx0 vz0 n).z +
            (noInputTraj delta vx0 vz0 n).vz * r * delta,
          (noInputTraj delta vx0 vz0 n).vx * r,
          (noInputTraj delta vx0 vz0 n).vz * r⟩ := by
      show updateMovementNoInput [] delta (noInputTraj delta vx0 vz0 n) = _
      rw [updateMovementNoInput_free delta (noInputTraj delta vx0 vz0 n)
        (by rw [← hrdef]; simp only [worldLimit]; linarith [hxlim.1])
        (by rw [← hrdef]; simp only [worldLimit]; linarith [hxlim.2])
        (by rw [← hrdef]; simp only [worldLimit]; linarith [hzlim.1])
        (by rw [← hrdef]; simp only [worldLimit]; linarith [hzlim.2])]
      rw [← hrdef]
    refine ⟨?_, ?_, ?_, ?_⟩
    · rw [hstep]
      show (noInputTraj delta vx0 vz0 n).vx * r = vx0 * r ^ (n + 1)
      rw [ivx, pow_succ]
      ring
    · rw [hstep]
      show (noInputTraj delta vx0 vz0 n).vz * r = vz0 * r ^ (n + 1)
      rw [ivz, pow_succ]
      ring
    · rw [hstep]
      exact hboundx
    · rw [hstep]
      exact hboundz

/-- C2 amended: with zero movement input, a fixed per-tick delta in
(0, 1/10), no colliders and a start at the origin with speed at most 100
per axis, every tick multiplies each horizontal velocity component by
(1 - 10 · delta); the squared velocity magnitude strictly decreases
while nonzero, never becomes zero from a nonzero start, and approaches
zero.  (The delta restriction is forced: delta = 1/10 zeroes the
velocity in one tick and larger deltas grow it, see the
counterexample.) -/
theorem no_input_friction_decay (delta vx0 vz0 : ℚ)
    (hd : 0 < delta) (hr : 10 * delta < 1)
    (hvx : |vx0| ≤ 100) (hvz : |vz0| ≤ 100) :
    (∀ n : ℕ,
      (noInputTraj delta vx0 vz0 (n + 1)).vx
          = (noInputTraj delta vx0 vz0 n).vx * (1 - 10 * delta) ∧
      (noInputTraj delta vx0 vz0 (n + 1)).vz
          = (noInputTraj delta vx0 vz0 n).vz * (1 - 10 * delta)) ∧
    (∀ n : ℕ, mag2 (noInputTraj delta vx0 vz0 n) ≠ 0 →
      mag2 (noInputTraj delta vx0 vz0 (n + 1))
        < mag2 (noInputTraj delta vx0 vz0 n)) ∧
    (¬(vx0 = 0 ∧ vz0 = 0) →
      ∀ n : ℕ, mag2 (noInputTraj delta vx0 vz0 n) ≠ 0) ∧
    (∀ eps : ℚ, 0 < eps → ∃ N : ℕ, ∀ n : ℕ, N ≤ n →
      mag2 (noInputTraj delta vx0 vz0 n) < eps) := by
  have hcf := noInputTraj_closed_form delta vx0 vz0 hd hr hvx hvz
  obtain ⟨r, hrdef⟩ : ∃ r : ℚ, r = 1 - 10 * delta := ⟨_, rfl⟩
  rw [← hrdef] at hcf ⊢
  have hr0 : 0 < r := by rw [hrdef]; linarith
  have hr1 : r < 1 := by rw [hrdef]; linarith
  have hmag : ∀ n : ℕ, mag2 (noInputTraj delta vx0 vz0 n)
      = (vx0 ^ 2 + vz0 ^ 2) * (r ^ n) ^ 2 := by
    intro n
    rw [mag2, (hcf n).1, (hcf n).2.1]
    ring
  have hS0 : (0 : ℚ) ≤ vx0 ^ 2 + vz0 ^ 2 := by positivity
  refine ⟨?_, ?_, ?_, ?_⟩
  · intro n
    constructor
    · rw [(hcf (n + 1)).1, (hcf n).1, pow_succ]; ring
    · rw [(hcf (n + 1)).2.1, (hcf n).2.1, pow_succ]; ring
  · intro n hne
    have hpos : 0 < mag2 (noInputTraj delta vx0 vz0 n) := by
      rcases lt_or_eq_of_le (by rw [hmag n]; positivity :
          (0 : ℚ) ≤ mag2 (noInputTraj delta vx0 vz0 n)) with h | h
      · exact h
      · exact absurd h.symm hne
    have hsq : r ^ 2 < 1 := by nlinarith
    calc mag2 (noInputTraj delta vx0 vz0 (n + 1))
        = mag2 (noInputTraj delta vx0 vz0 n) * r ^ 2 := by
          rw [hmag (n + 1), hmag n, pow_succ]; ring
      _ < mag2 (noInputTraj delta vx0 vz0 n) * 1 := by
          exact mul_lt_mul_of_pos_left hsq hpos
      _ = mag2 (noInputTraj delta vx0 vz0 n) := mul_one _
  · intro hne n
    rw [hmag n]
    have hSpos : 0 < vx0 ^ 2 + vz0 ^ 2 := by
      rcases not_and_or.mp hne with h | h
      · have : 0 < vx0 ^ 2 := by positivity
        nlinarith [sq_nonneg vz0]
      · have : 0 < vz0 ^ 2 := by positivity
        nlinarith [sq_nonneg vx0]
    have hppos : 0 < (r ^ n) ^ 2 := by positivity
    positivity
  · intro eps heps
    obtain ⟨N, hN⟩ := exists_pow_lt_of_lt_one
      (div_pos heps (by norm_num : (0 : ℚ) < 20000)) hr1
    refine ⟨N, fun n hn => ?_⟩
    have hp0 : (0 : ℚ) ≤ r ^ n := (pow_pos hr0 n).le
    have hp1 : r ^ n ≤ 1 := pow_le_one₀ hr0.le hr1.le
    have hmono : r ^ n ≤ r ^ N := pow_le_pow_of_le_one hr0.le hr1.le hn
    have hsq : (r ^ n) ^ 2 ≤ r ^ N := by
      calc (r ^ n) ^ 2 = r ^ n * r ^ n := sq (r ^ n) ▸ by ring
        _ ≤ r ^ n * 1 := mul_le_of_le_one_right hp0 hp1 |>.trans_eq (mul_one _).symm
        _ = r ^ n := mul_one _
        _ ≤ r ^ N := hmono
    have hSle : vx0 ^ 2 + vz0 ^ 2 ≤ 20000 := by
      have h1 : vx0 ^ 2 ≤ 10000 := by nlinarith [sq_abs vx0, abs_nonneg vx0]
      have h2 : vz0 ^ 2 ≤ 10000 := by nlinarith [sq_abs vz0, abs_nonneg vz0]
      linarith
    calc mag2 (noInputTraj delta vx0 vz0 n)
        = (vx0 ^ 2 + vz0 ^ 2) * (r ^ n) ^ 2 := hmag n
      _ ≤ 20000 * (r ^ N) :=
          mul_le_mul hSle hsq (by positivity) (by norm_num)
      _ < 20000 * (eps / 20000) := by
          exact mul_lt_mul_of_pos_left hN (by norm_num)
      _ = eps := by ring

/-- C2 counterexample: one zero-input tick with delta = 1/10 sends the
nonzero velocity (5, 0) to exactly 0 (factor 1 - 10 · delta = 0), and
one tick with delta = 3/10 doubles its magnitude (squared magnitude 25
to 100), so neither "never becomes exactly zero" nor "monotonically
decreases" holds for all positive deltas. -/
theorem friction_factor_counterexample :
    (updateMovementNoInput [] (1 / 10) ⟨0, 0, 5, 0⟩).vx = 0 ∧
    (5 : ℚ) ≠ 0 ∧
    mag2 (⟨0, 0, 5, 0⟩ : PlayerState) = 25 ∧
    mag2 (updateMovementNoInput [] (3 / 10) ⟨0, 0, 5, 0⟩) = 100 := by
  refine ⟨?_, by norm_num, by norm_num [mag2], ?_⟩ <;>
    norm_num [updateMovementNoInput, moveStage, resolveAxisX, resolveAxisZ,
      clampAxis, checkBuildingCollisions, worldLimit, mag2]

/-- Witness for C2: delta = 1/20, starting velocity (1, 0): after one
tick the x velocity is 1 · (1 - 10/20) = 1/2, matching the per-tick
factor, and the squared magnitude strictly decreased from 1 to 1/4. -/
theorem no_input_friction_decay_witness :
    (noInputTraj (1 / 20) 1 0 1).vx
        = (noInputTraj (1 / 20) 1 0 0).vx * (1 - 10 * (1 / 20)) ∧
    (noInputTraj (1 / 20) 1 0 1).vx = 1 / 2 ∧
    mag2 (noInputTraj (1 / 20) 1 0 1) < mag2 (noInputTraj (1 / 20) 1 0 0) := by
  have h := no_input_friction_decay (1 / 20) 1 0 (by norm_num) (by norm_num)
    (by norm_num) (by norm_num)
  have h1 := (h.1 0).1
  have hv0 : (noInputTraj (1 / 20) 1 0 0).vx = 1 := rfl
  have hm0 : mag2 (noInputTraj (1 / 20) 1 0 0) ≠ 0 := by
    norm_num [noInputTraj, mag2]
  refine ⟨h1, ?_, h.2.1 0 hm0⟩
  rw [h1, hv0]
  norm_num

/-- Witness for C9: the center (40, 40) passes `isTooCloseToRoad`
(nearest grid road lines are 20 away), and the soundness theorem then
gives the 11-unit clearance from the axes. -/
theorem isTooCloseToRoad_sound_witness :
    isTooCloseToRoad 40 40 = false ∧
    roadWidth / 2 + 5 ≤ |(40 : ℚ)| := by
  have hf : isTooCloseToRoad 40 40 = false := by
    norm_num [isTooCloseToRoad, roadLines, roadWidth]
  exact ⟨hf, (isTooCloseToRoad_sound 40 40 hf).1⟩
